import Mathlib

/-!
Verification development for the usb-flash firmware provisioning station.

The Python sources under src/ are shallowly embedded below: pure helpers
become Lean functions, the filesystem / subprocess / pyudev collaborators
become explicit oracle records quantified over in the theorems, and the
mutable session globals of main.py become an explicit `Session` state
threaded through the event handlers.  Bytes are modelled as `Nat` values
below 256, 32-bit machine words as `Nat` reduced with `% 2 ^ 32`.
-/

namespace UsbFlash

/-! ## 32-bit word arithmetic (hashlib.sha256 internals) -/

/-- Reduce a natural number to a 32-bit word. -/
def w32 (x : Nat) : Nat := x % 4294967296

/-- Rotate a 32-bit word right by `n` bits. -/
def rotr32 (n x : Nat) : Nat := w32 (Nat.lor (x >>> n) (x <<< (32 - n)))

/-- SHA-256 round constants (FIPS 180-4), written in decimal. -/
def sha256K : List Nat :=
  [1116352408, 1899447441, 3049323471, 3921009573,
   961987163, 1508970993, 2453635748, 2870763221,
   3624381080, 310598401, 607225278, 1426881987,
   1925078388, 2162078206, 2614888103, 3248222580,
   3835390401, 4022224774, 264347078, 604807628,
   770255983, 1249150122, 1555081692, 1996064986,
   2554220882, 2821834349, 2952996808, 3210313671,
   3336571891, 3584528711, 113926993, 338241895,
   666307205, 773529912, 1294757372, 1396182291,
   1695183700, 1986661051, 2177026350, 2456956037,
   2730485921, 2820302411, 3259730800, 3345764771,
   3516065817, 3600352804, 4094571909, 275423344,
   430227734, 506948616, 659060556, 883997877,
   958139571, 1322822218, 1537002063, 1747873779,
   1955562222, 2024104815, 2227730452, 2361852424,
   2428436474, 2756734187, 3204031479, 3329325298]

/-- SHA-256 initial hash values (FIPS 180-4), written in decimal. -/
def sha256H0 : List Nat :=
  [1779033703, 3144134277, 1013904242, 2773480762,
   1359893119, 2600822924, 528734635, 1541459225]

/-- Interpret bytes as big-endian 32-bit words, four bytes per word. -/
def bytesToWordsBE : List Nat → List Nat
  | b0 :: b1 :: b2 :: b3 :: rest =>
      (b0 * 16777216 + b1 * 65536 + b2 * 256 + b3) :: bytesToWordsBE rest
  | _ => []

/-- Extend a 16-word block to the 64-word message schedule; the first
argument is the number of words still to append (48 at the top call). -/
def extendSchedule : Nat → List Nat → List Nat
  | 0, ws => ws
  | n + 1, ws =>
      let i := ws.length
      let w16 := ws.getD (i - 16) 0
      let w15 := ws.getD (i - 15) 0
      let w7 := ws.getD (i - 7) 0
      let w2 := ws.getD (i - 2) 0
      let s0 := Nat.xor (Nat.xor (rotr32 7 w15) (rotr32 18 w15)) (w15 >>> 3)
      let s1 := Nat.xor (Nat.xor (rotr32 17 w2) (rotr32 19 w2)) (w2 >>> 10)
      extendSchedule n (ws ++ [w32 (w16 + s0 + w7 + s1)])

/-- One SHA-256 compression round on the eight-word working state. -/
def roundStep (st : List Nat) (kw : Nat × Nat) : List Nat :=
  match st with
  | [a, b, c, d, e, f, g, h] =>
      let s1 := Nat.xor (Nat.xor (rotr32 6 e) (rotr32 11 e)) (rotr32 25 e)
      let ch := Nat.xor (Nat.land e f) (Nat.land (Nat.xor e 4294967295) g)
      let t1 := w32 (h + s1 + ch + kw.1 + kw.2)
      let s0 := Nat.xor (Nat.xor (rotr32 2 a) (rotr32 13 a)) (rotr32 22 a)
      let maj := Nat.xor (Nat.xor (Nat.land a b) (Nat.land a c)) (Nat.land b c)
      let t2 := w32 (s0 + maj)
      [w32 (t1 + t2), a, b, c, w32 (d + t1), e, f, g]
  | other => other

/-- Compress one 64-byte block into the running eight-word hash state. -/
def compress (hs : List Nat) (block : List Nat) : List Nat :=
  let ws := extendSchedule 48 (bytesToWordsBE block)
  let st := (sha256K.zip ws).foldl roundStep hs
  (hs.zip st).map (fun p => w32 (p.1 + p.2))

/-- Consume every complete 64-byte block of the buffer, returning the new
hash state and the remaining (shorter than 64 bytes) buffer.  The first
argument is recursion fuel; any fuel at least the buffer length suffices. -/
def absorbBlocks : Nat → List Nat → List Nat → List Nat × List Nat
  | 0, hs, buf => (hs, buf)
  | fuel + 1, hs, buf =>
      if 64 ≤ buf.length then
        absorbBlocks fuel (compress hs (buf.take 64)) (buf.drop 64)
      else
        (hs, buf)

/-- Canonical block absorption, fuel fixed to the buffer length. -/
def absorb (hs buf : List Nat) : List Nat × List Nat :=
  absorbBlocks buf.length hs buf

/-- Streaming hash context, mirroring a hashlib.sha256 object: running hash
state, buffered tail bytes, and the total byte count absorbed so far. -/
structure Sha256Ctx where
  hs : List Nat
  pending : List Nat
  len : Nat
  deriving Repr, DecidableEq

/-- Fresh hash context, as produced by hashlib.sha256(). -/
def sha256Start : Sha256Ctx := ⟨sha256H0, [], 0⟩

/-- Absorb more bytes into the context (hashlib update). -/
def sha256Update (ctx : Sha256Ctx) (bs : List Nat) : Sha256Ctx :=
  ⟨(absorb ctx.hs (ctx.pending ++ bs)).1, (absorb ctx.hs (ctx.pending ++ bs)).2,
   ctx.len + bs.length⟩

/-- Big-endian byte encoding of a number in a fixed number of bytes. -/
def lenBytesBE : Nat → Nat → List Nat
  | 0, _ => []
  | n + 1, v => lenBytesBE n (v / 256) ++ [v % 256]

/-- SHA-256 padding for a message of `len` bytes: the 0x80 marker, zero
fill to 56 mod 64, then the bit length in eight big-endian bytes. -/
def sha256Pad (len : Nat) : List Nat :=
  [128] ++ List.replicate ((119 - len % 64) % 64) 0 ++ lenBytesBE 8 (len * 8)

/-- Lowercase hex digit (ASCII byte) of a value below 16. -/
def hexDigit (n : Nat) : Nat := if n < 10 then 48 + n else 87 + n

/-- Eight lowercase hex digits (ASCII bytes) of a 32-bit word. -/
def wordHexBytes (w : Nat) : List Nat :=
  (List.range 8).map (fun i => hexDigit ((w >>> ((7 - i) * 4)) % 16))

/-- Finalize the context: pad, absorb, and emit the 64 lowercase hex digit
bytes of the digest (hashlib hexdigest). -/
def sha256Final (ctx : Sha256Ctx) : List Nat :=
  let r := absorb ctx.hs (ctx.pending ++ sha256Pad ctx.len)
  r.1.foldr (fun w acc => wordHexBytes w ++ acc) []

/-- Lowercase hex SHA-256 digest (as ASCII bytes) of a whole byte string. -/
def sha256HexBytes (bs : List Nat) : List Nat :=
  sha256Final (sha256Update sha256Start bs)

/-- Split a byte string into chunks of size `k`; fuel-driven, any fuel at
least the list length suffices when `0 < k`. -/
def chunksGo : Nat → Nat → List Nat → List (List Nat)
  | 0, _, _ => []
  | _, _, [] => []
  | fuel + 1, k, bs => bs.take k :: chunksGo fuel k (bs.drop k)

/-! ## Small string and byte helpers -/

/-- Lowercase an ASCII letter, as Python str.lower does on ASCII input. -/
def asciiLowerChar (c : Char) : Char :=
  if 65 ≤ c.toNat ∧ c.toNat ≤ 90 then Char.ofNat (c.toNat + 32) else c

/-- Lowercase a string (ASCII range, matching str.lower on the hex ids used). -/
def asciiLower (s : String) : String := ⟨s.data.map asciiLowerChar⟩

/-- Python str.startswith over the underlying characters. -/
def strStartsWith (s p : String) : Bool := p.data.isPrefixOf s.data

/-- Whitespace bytes stripped by str.strip (ASCII range). -/
def isWsByte (b : Nat) : Bool :=
  b == 9 || b == 10 || b == 11 || b == 12 || b == 13 || b == 32

/-- Strip leading and trailing whitespace bytes, modelling str.strip on the
decoded checksum file text. -/
def stripBytes (bs : List Nat) : List Nat :=
  ((bs.dropWhile isWsByte).reverse.dropWhile isWsByte).reverse

/-- Join a mount point with a relative path, modelling os.path.join for the
relative second arguments used by the sources. -/
def pathJoin (base rel : String) : String := base ++ "/" ++ rel

/-! ## usb_certificate_verifier.py -/

/-- USBDeviceInfo dataclass: the firmware manifest loaded from
device_info.json. -/
structure USBDeviceInfo where
  device_id : String
  device_name : String
  firmware_version : String
  created_at : String
  target_device : String
  deriving Repr, DecidableEq

/-- VerificationResult dataclass. -/
structure VerificationResult where
  success : Bool
  message : String
  device_info : Option USBDeviceInfo := none
  firmware_path : Option String := none
  mount_point : Option String := none
  deriving Repr, DecidableEq

/-- Security and firmware-layout configuration consumed by the verifier
(the config dict keys it reads). -/
structure VerifierConfig where
  require_certificate : Bool
  verify_checksum : Bool
  device_info_path : String
  usb_path : String
  certificate_path : String
  checksum_path : String
  deriving Repr, DecidableEq

/-- Outcome of the external openssl signature-verification invocation. -/
inductive SigOutcome where
  | exit (code : Nat)
  | timeout
  deriving Repr, DecidableEq

/-- External collaborators of the verifier: the filesystem (existence and
byte contents), the json.load plus field extraction of device_info.json
(none models any parse or missing-field exception), and the openssl
subprocess. -/
structure FsEnv where
  fileExists : String → Bool
  readBytes : String → Option (List Nat)
  parseDeviceInfo : List Nat → Option USBDeviceInfo
  opensslVerify : String → String → String → SigOutcome

/-- Verifier object state set up in USBCertificateVerifier.__init__:
security_enabled records whether the public key file existed then. -/
structure VerifierState where
  public_key_path : String
  security_enabled : Bool
  deriving Repr, DecidableEq

/-- Construct the verifier: security_enabled iff the public key exists. -/
def mkVerifier (env : FsEnv) (public_key_path : String) : VerifierState :=
  ⟨public_key_path, env.fileExists public_key_path⟩

/-- Step 1 of verify_usb_device: _check_file_structure.  The manifest and
firmware image are always required; the certificate path whenever
require_certificate is set (independently of security_enabled), the
checksum path whenever verify_checksum is set.  Failure lists every
missing path. -/
def check_file_structure (env : FsEnv) (cfg : VerifierConfig) (mount_point : String) :
    VerificationResult :=
  let required :=
    [cfg.device_info_path, cfg.usb_path]
      ++ (if cfg.require_certificate then [cfg.certificate_path] else [])
      ++ (if cfg.verify_checksum then [cfg.checksum_path] else [])
  let missing := required.filter (fun p => !(env.fileExists (pathJoin mount_point p)))
  if missing.isEmpty then
    { success := true, message := "File structure OK" }
  else
    { success := false, message := "Missing required files: " ++ String.intercalate ", " missing }

/-- Step 2: _load_device_info, reading and parsing device_info.json; any
exception yields none. -/
def load_device_info (env : FsEnv) (cfg : VerifierConfig) (mount_point : String) :
    Option USBDeviceInfo :=
  (env.readBytes (pathJoin mount_point cfg.device_info_path)).bind env.parseDeviceInfo

/-- Step 3: _verify_certificate via the openssl subprocess; exit code 0 is
a valid signature, any other exit an invalid one, and the subprocess
timeout its own failure reason. -/
def verify_certificate (env : FsEnv) (ver : VerifierState) (cfg : VerifierConfig)
    (mount_point : String) : VerificationResult :=
  let cert_path := pathJoin mount_point cfg.certificate_path
  let info_path := pathJoin mount_point cfg.device_info_path
  match env.opensslVerify ver.public_key_path cert_path info_path with
  | .exit 0 => { success := true, message := "Certificate verified" }
  | .exit _ => { success := false, message := "Invalid certificate signature" }
  | .timeout => { success := false, message := "Certificate verification timeout" }

/-- The digest computation of _calculate_sha256: stream the file bytes in
4096-byte chunks through a hashlib context and emit the hex digest. -/
def calculate_sha256 (bs : List Nat) : List Nat :=
  sha256Final ((chunksGo bs.length 4096 bs).foldl sha256Update sha256Start)

/-- Step 4: _verify_firmware_checksum.  Read the expected digest text and
strip it, compute the streamed digest of the firmware image, and compare
exactly; an unreadable file is the exception branch. -/
def verify_firmware_checksum (env : FsEnv) (cfg : VerifierConfig) (mount_point : String) :
    VerificationResult :=
  match env.readBytes (pathJoin mount_point cfg.checksum_path) with
  | none => { success := false, message := "Checksum verification error" }
  | some content =>
    match env.readBytes (pathJoin mount_point cfg.usb_path) with
    | none => { success := false, message := "Checksum verification error" }
    | some image =>
      if calculate_sha256 image = stripBytes content then
        { success := true, message := "Firmware checksum verified" }
      else
        { success := false, message := "Firmware checksum mismatch - file may be corrupted" }

/-- verify_usb_device with instrumentation: the Bool records whether the
certificate-verification step actually ran.  Fails fast in the source
order: structure, manifest load, certificate (only when security_enabled
and require_certificate), checksum (only when verify_checksum). -/
def verify_usb_device_instr (env : FsEnv) (ver : VerifierState) (cfg : VerifierConfig)
    (mount_point : String) : VerificationResult × Bool :=
  let r1 := check_file_structure env cfg mount_point
  if !r1.success then (r1, false)
  else
    match load_device_info env cfg mount_point with
    | none => ({ success := false, message := "Failed to load device_info.json" }, false)
    | some info =>
      let certRan := ver.security_enabled && cfg.require_certificate
      let r3 := if certRan then verify_certificate env ver cfg mount_point
                else { success := true, message := "Certificate verification SKIPPED" }
      if !r3.success then (r3, certRan)
      else
        let r4 := if cfg.verify_checksum then verify_firmware_checksum env cfg mount_point
                  else { success := true, message := "Checksum verification SKIPPED" }
        if !r4.success then (r4, certRan)
        else
          ({ success := true
             message := "USB device verified successfully"
             device_info := some info
             firmware_path := some (pathJoin mount_point cfg.usb_path)
             mount_point := some mount_point }, certRan)

/-- verify_usb_device as called by main.py. -/
def verify_usb_device (env : FsEnv) (ver : VerifierState) (cfg : VerifierConfig)
    (mount_point : String) : VerificationResult :=
  (verify_usb_device_instr env ver cfg mount_point).1

/-! ## firmware_flasher.py -/

/-- FlashResult dataclass; durations are not modelled (wall-clock), the
field is kept with value 0. -/
structure FlashResult where
  success : Bool
  message : String
  duration : Nat := 0
  attempt : Nat := 1
  deriving Repr, DecidableEq

/-- Flasher configuration fields read in FirmwareFlasher.__init__. -/
structure FlasherConfig where
  firmware_path : String
  tool_command : String
  timeout : Nat
  baudrate : Nat
  retry_count : Nat
  retry_delay : Nat
  deriving Repr, DecidableEq

/-- Behaviour of one invocation of the external flashing tool. -/
inductive ToolOutcome where
  | exit (code : Nat)
  | timeout
  | notFound
  deriving Repr, DecidableEq

/-- Observable actions of a flash run: the fixed settle sleep, a tool
invocation for a given attempt number, and the inter-attempt delay. -/
inductive FlashAction where
  | settle
  | invoke (attempt : Nat)
  | wait (delay : Nat)
  deriving Repr, DecidableEq

/-- Python str.split() on the spaces appearing in the command templates:
split on spaces and drop empty tokens. -/
def pySplit (s : String) : List String :=
  (s.splitOn " ").filter (fun t => t ≠ "")

/-- _build_command: substitute port, firmware and baudrate into the
template and split into argv. -/
def build_command (cfg : FlasherConfig) (port : String) : List String :=
  pySplit (((cfg.tool_command.replace "{port}" port).replace
    "{firmware}" cfg.firmware_path).replace "{baudrate}" (toString cfg.baudrate))

/-- _execute_flash for one attempt, with the tool behaviour supplied as an
oracle indexed by attempt number. -/
def execute_flash (cfg : FlasherConfig) (behave : Nat → ToolOutcome) (port : String)
    (attempt : Nat) : FlashResult :=
  match behave attempt with
  | .exit 0 => { success := true, message := "Flash completed successfully", attempt := attempt }
  | .exit (n + 1) =>
      { success := false, message := "Tool returned error code " ++ toString (n + 1)
        attempt := attempt }
  | .timeout =>
      { success := false, message := "Flash timeout after " ++ toString cfg.timeout ++ "s"
        attempt := attempt }
  | .notFound =>
      { success := false
        message := "Flash tool not found: " ++ (build_command cfg port).headD ""
        attempt := attempt }

/-- The failure result returned after the retry loop exhausts. -/
def flashFailResult (cfg : FlasherConfig) (lastError : Option String) : FlashResult :=
  { success := false
    message := "Flash failed after " ++ toString cfg.retry_count
      ++ " attempts. Last error: " ++ lastError.getD "None"
    attempt := cfg.retry_count }

/-- The retry loop of FirmwareFlasher.flash; fuel counts remaining
attempts, attempt is the current 1-based attempt number, and the returned
action list records settles, invocations and the waits taken between
consecutive failed attempts (no wait after the last). -/
def flashLoop (cfg : FlasherConfig) (behave : Nat → ToolOutcome) (port : String) :
    Nat → Nat → Option String → FlashResult × List FlashAction
  | 0, _, lastError => (flashFailResult cfg lastError, [])
  | fuel + 1, attempt, _ =>
      let res := execute_flash cfg behave port attempt
      let acts := [FlashAction.settle, FlashAction.invoke attempt]
      if res.success then (res, acts)
      else if fuel = 0 then (flashFailResult cfg (some res.message), acts)
      else
        let rest := flashLoop cfg behave port fuel (attempt + 1) (some res.message)
        (rest.1, acts ++ [FlashAction.wait cfg.retry_delay] ++ rest.2)

/-- FirmwareFlasher.flash: up to retry_count attempts starting at 1. -/
def flash (cfg : FlasherConfig) (behave : Nat → ToolOutcome) (port : String) :
    FlashResult × List FlashAction :=
  flashLoop cfg behave port cfg.retry_count 1 none

/-! ## device_validator.py -/

/-- USBDevice dataclass from usb_monitor.py. -/
structure USBDevice where
  sys_name : String
  device_node : String
  vid : String
  pid : String
  deriving Repr, DecidableEq

/-- DeviceValidator state: targets lowercased in __init__. -/
structure Validator where
  target_vid : String
  target_pid : String
  deriving Repr, DecidableEq

/-- DeviceValidator.__init__. -/
def mkValidator (vid pid : String) : Validator := ⟨asciiLower vid, asciiLower pid⟩

/-- DeviceValidator.is_valid_device: case-insensitive match of both ids. -/
def is_valid_device (v : Validator) (d : USBDevice) : Bool :=
  asciiLower d.vid == v.target_vid && asciiLower d.pid == v.target_pid

/-- One tty-class node as enumerated by pyudev: its device node (None
possible) and, when it has a USB parent, that parent ID_VENDOR_ID and
ID_MODEL_ID pair. -/
structure TtyNode where
  node : Option String
  parentIds : Option (String × String)
  deriving Repr, DecidableEq

/-- External collaborators of get_device_port: os.path.exists and the
pyudev tty-subsystem enumeration. -/
structure PortEnv where
  fileExists : String → Bool
  ttys : List TtyNode

/-- The static conventional serial names probed by method 2. -/
def commonPortNames : List String :=
  ["ttyUSB0", "ttyUSB1", "ttyUSB2", "ttyACM0", "ttyACM1"]

/-- Method 2 of get_device_port: return the first conventional name whose
/dev node exists and whose /sys/class/tty/NAME/device directory exists.
The source never reads the VID/PID it mentions in comments, so no
parent-identity check happens here. -/
def probeCommonPorts (env : PortEnv) : Option String :=
  commonPortNames.findSome? (fun name =>
    if env.fileExists ("/dev/" ++ name)
        && env.fileExists ("/sys/class/tty/" ++ name ++ "/device") then
      some ("/dev/" ++ name)
    else none)

/-- Method 3 of get_device_port: scan pyudev tty nodes for one whose USB
parent matches the device ids exactly (case-sensitive here), skipping
nodes without a device node. -/
def pyudevFindPort (env : PortEnv) (d : USBDevice) : Option String :=
  env.ttys.findSome? (fun t =>
    match t.parentIds with
    | some ids =>
        if ids.1 == d.vid && ids.2 == d.pid then
          match t.node with
          | some p => if p ≠ "" then some p else none
          | none => none
        else none
    | none => none)

/-- DeviceValidator.get_device_port: the device node itself when it is a
serial path, then the conventional-name probe, then the pyudev scan. -/
def get_device_port (env : PortEnv) (d : USBDevice) : Option String :=
  if d.device_node ≠ "" && strStartsWith d.device_node "/dev/tty" then
    some d.device_node
  else
    match probeCommonPorts env with
    | some p => some p
    | none => pyudevFindPort env d

/-! ## usb_storage_monitor.py (unmount_device) -/

/-- USBStorage dataclass. -/
structure USBStorage where
  device_node : String
  mount_point : String
  vendor : String
  model : String
  deriving Repr, DecidableEq

/-- World state seen by unmount_device: the live mount table, the mount
directories present, and whether the umount subprocess for a path exceeds
its timeout (the only path on which the source returns False). -/
structure MountWorld where
  mounted : String → Bool
  dirExists : String → Bool
  umountTimesOut : String → Bool

/-- Semantics of the umount subprocess on a path: exit 0 and unmount when
the path is mounted, a nonzero exit otherwise. -/
def runUmount (w : MountWorld) (mp : String) : Nat × MountWorld :=
  if w.mounted mp then
    (0, ⟨fun p => if p = mp then false else w.mounted p, w.dirExists, w.umountTimesOut⟩)
  else (32, w)

/-- The umount part of unmount_device: the lazy umount, then the forced
umount when the first exited nonzero. -/
def umountPhase (w : MountWorld) (mp : String) : MountWorld :=
  if (runUmount w mp).1 = 0 then (runUmount w mp).2
  else (runUmount (runUmount w mp).2 mp).2

/-- The best-effort rmdir of the mount directory, failures swallowed. -/
def rmdirPhase (w : MountWorld) (mp : String) : MountWorld :=
  if w.dirExists mp then
    ⟨w.mounted, fun p => if p = mp then false else w.dirExists p, w.umountTimesOut⟩
  else w

/-- unmount_device: lazy umount, a forced umount on nonzero exit, then a
best-effort rmdir; every exception is caught, a subprocess timeout being
the single branch that returns False.  The Bool is the Python return
value; the function is total, so no call raises. -/
def unmount_device (w : MountWorld) (mp : String) : Bool × MountWorld :=
  if w.umountTimesOut mp then (false, w)
  else (true, rmdirPhase (umountPhase w mp) mp)

/-! ## main.py: session state and event handlers -/

/-- The two session globals of main.py. -/
structure Session where
  current_usb_storage : Option USBStorage
  current_firmware_path : Option String
  deriving Repr, DecidableEq

/-- Initial session: both globals None. -/
def initSession : Session := ⟨none, none⟩

/-- Lamp displays driven through the LEDController. -/
inductive Lamp where
  | idle
  | validating
  | updating
  | success
  | error
  deriving Repr, DecidableEq

/-- Core of handle_storage_mounted, given the verdict the verifier
returned: a successful verdict installs the storage and its firmware
path, a failed one only drives the lamp. -/
def handle_storage_mounted_v (sess : Session) (storage : USBStorage)
    (result : VerificationResult) : Session :=
  if result.success then ⟨some storage, result.firmware_path⟩ else sess

/-- handle_storage_mounted as in main.py, with the verifier supplied as a
function of the mount point. -/
def handle_storage_mounted (verify : String → VerificationResult) (sess : Session)
    (storage : USBStorage) : Session :=
  handle_storage_mounted_v sess storage (verify storage.mount_point)

/-- handle_storage_removed: when a storage is active, unmount it (world
effect, not session state) and clear both globals; otherwise only the
lamp changes. -/
def handle_storage_removed (sess : Session) (_device_node : String) : Session :=
  if sess.current_usb_storage.isSome then ⟨none, none⟩ else sess

/-- External calls made by handle_device_connected that the claims track. -/
inductive DevCall where
  | flashCall (port : String) (firmware : String)
  deriving Repr, DecidableEq

/-- Collaborators wired into handle_device_connected by main: the
validator, port resolution, and the flash engine (given port and the
firmware path installed on the flasher). -/
structure DevCtx where
  validator : Validator
  resolvePort : USBDevice → Option String
  flashFn : String → String → FlashResult

/-- handle_device_connected: validate identity, require a trusted
firmware path, resolve the port, then flash; the session globals are
never written, and the returned lists record the lamp displays in order
and the flash-engine invocations. -/
def handle_device_connected (ctx : DevCtx) (sess : Session) (d : USBDevice) :
    Session × List Lamp × List DevCall :=
  if !is_valid_device ctx.validator d then
    (sess, [Lamp.validating, Lamp.idle], [])
  else
    match sess.current_firmware_path with
    | none => (sess, [Lamp.validating, Lamp.error, Lamp.idle], [])
    | some fw =>
      match ctx.resolvePort d with
      | none => (sess, [Lamp.validating, Lamp.error, Lamp.idle], [])
      | some port =>
        let r := ctx.flashFn port fw
        (sess, [Lamp.validating, Lamp.updating, if r.success then Lamp.success else Lamp.error,
                Lamp.idle],
         [DevCall.flashCall port fw])

/-! ## main.py: the orchestrator loop -/

/-- Storage-queue events as posted by USBStorageMonitor. -/
inductive StorageEvent where
  | mounted (storage : USBStorage)
  | removed (device_node : String)

/-- Device-queue events as posted by USBMonitor. -/
inductive DeviceEvent where
  | connected (d : USBDevice)
  | disconnected (d : USBDevice)

/-- The loop-visible state: the two bounded queues and the session. -/
structure LoopState where
  storageQ : List StorageEvent
  deviceQ : List DeviceEvent
  session : Session

/-- Report of one loop iteration: whether the device queue was polled and
whether a storage event was handled. -/
structure IterReport where
  devicePolled : Bool
  storageHandled : Bool
  deriving Repr, DecidableEq

/-- One iteration of the main event loop: poll the storage queue first
and, when it yields an event, handle it and continue without polling the
device queue; only an empty storage queue reaches the device poll. -/
def loopIter (verify : String → VerificationResult) (ctx : DevCtx) (st : LoopState) :
    LoopState × IterReport :=
  match st.storageQ with
  | se :: rest =>
    let sess' :=
      match se with
      | .mounted storage => handle_storage_mounted verify st.session storage
      | .removed node => handle_storage_removed st.session node
    (⟨rest, st.deviceQ, sess'⟩, ⟨false, true⟩)
  | [] =>
    match st.deviceQ with
    | de :: rest =>
      let sess' :=
        match de with
        | .connected d => (handle_device_connected ctx st.session d).1
        | .disconnected _ => st.session
      (⟨[], rest, sess'⟩, ⟨true, false⟩)
    | [] => (st, ⟨true, false⟩)

/-! ## trace semantics of the session globals (for the session invariant) -/

/-- Events of a session history, with the verification verdict a mounted
event produced attached to it. -/
inductive Event where
  | storageMounted (storage : USBStorage) (result : VerificationResult)
  | storageRemoved (device_node : String)
  | deviceConnected (d : USBDevice)
  | deviceDisconnected (d : USBDevice)

/-- Effect of one event on the session globals, exactly as the main.py
handlers dispatch. -/
def stepSession (ctx : DevCtx) (sess : Session) (e : Event) : Session :=
  match e with
  | .storageMounted storage result => handle_storage_mounted_v sess storage result
  | .storageRemoved node => handle_storage_removed sess node
  | .deviceConnected d => (handle_device_connected ctx sess d).1
  | .deviceDisconnected _ => sess

/-- Session after a history of events, from the initial globals. -/
def runSession (ctx : DevCtx) (es : List Event) : Session :=
  es.foldl (stepSession ctx) initSession

/-- A mounted event is well formed when a successful verdict carries a
firmware path, as every success built by verify_usb_device does. -/
def wfEvent : Event → Prop
  | .storageMounted _ result => result.success = true → result.firmware_path ≠ none
  | _ => True

/-- One step of the specification reading of the invariant: a successful
verification establishes trust, a removal (or a failure that cleared it,
of which there are none: failures never clear) revokes it, everything
else leaves it alone. -/
def specStep (b : Bool) (e : Event) : Bool :=
  match e with
  | .storageMounted _ result => if result.success then true else b
  | .storageRemoved _ => false
  | _ => b

/-- The specification reading of the invariant over a history: the trusted
path is non-empty exactly when some verification succeeded and neither a
removal nor a verification failure has since cleared it. -/
def trustedSpec (es : List Event) : Bool :=
  es.foldl specStep false

/-! ## Lemmas: streamed chunked hashing equals whole-message hashing -/

/-- Block absorption does not depend on the fuel once the fuel covers the
buffer length. -/
theorem absorbBlocks_congr : ∀ f1 f2 (hs buf : List Nat), buf.length ≤ f1 →
    buf.length ≤ f2 → absorbBlocks f1 hs buf = absorbBlocks f2 hs buf := by
  intro f1
  induction f1 with
  | zero =>
    intro f2 hs buf h1 _
    have hb : buf = [] := List.eq_nil_of_length_eq_zero (Nat.le_zero.mp h1)
    subst hb
    cases f2 with
    | zero => rfl
    | succ m => simp [absorbBlocks]
  | succ n ih =>
    intro f2 hs buf h1 h2
    cases f2 with
    | zero =>
      have hb : buf = [] := List.eq_nil_of_length_eq_zero (Nat.le_zero.mp h2)
      subst hb
      simp [absorbBlocks]
    | succ m =>
      simp only [absorbBlocks]
      by_cases h : 64 ≤ buf.length
      · rw [if_pos h, if_pos h]
        apply ih
        · simp only [List.length_drop]; omega
        · simp only [List.length_drop]; omega
      · rw [if_neg h, if_neg h]

/-- Absorbing a buffer of fewer than 64 bytes leaves it pending. -/
theorem absorb_small (hs buf : List Nat) (h : buf.length < 64) :
    absorb hs buf = (hs, buf) := by
  unfold absorb
  rcases hb : buf.length with _ | n
  · rfl
  · simp only [absorbBlocks]
    rw [if_neg (by omega)]

/-- Absorbing a buffer with at least one full block compresses that block
first. -/
theorem absorb_step (hs buf : List Nat) (h : 64 ≤ buf.length) :
    absorb hs buf = absorb (compress hs (buf.take 64)) (buf.drop 64) := by
  unfold absorb
  obtain ⟨n, hn⟩ : ∃ n, buf.length = n + 1 := ⟨buf.length - 1, by omega⟩
  rw [hn]
  simp only [absorbBlocks]
  rw [if_pos h]
  apply absorbBlocks_congr
  · simp only [List.length_drop]; omega
  · exact Nat.le_refl _

/-- Splitting the absorbed buffer at any point gives the same state. -/
theorem absorb_append : ∀ (n : Nat) (buf : List Nat), buf.length ≤ n →
    ∀ (hs b : List Nat),
    absorb hs (buf ++ b) = absorb (absorb hs buf).1 ((absorb hs buf).2 ++ b) := by
  intro n
  induction n with
  | zero =>
    intro buf h hs b
    have hb : buf = [] := List.eq_nil_of_length_eq_zero (Nat.le_zero.mp h)
    subst hb
    rw [absorb_small hs [] (by simp)]
  | succ n ih =>
    intro buf h hs b
    by_cases h64 : 64 ≤ buf.length
    · have h64b : 64 ≤ (buf ++ b).length := by
        simp only [List.length_append]; omega
      rw [absorb_step _ _ h64b, absorb_step _ _ h64]
      rw [List.take_append_of_le_length h64, List.drop_append_of_le_length h64]
      exact ih (buf.drop 64) (by simp only [List.length_drop]; omega) _ b
    · rw [absorb_small hs buf (by omega)]

/-- The pending buffer left by absorption is always shorter than a block. -/
theorem absorb_snd_lt : ∀ (n : Nat) (buf : List Nat), buf.length ≤ n →
    ∀ hs, (absorb hs buf).2.length < 64 := by
  intro n
  induction n with
  | zero =>
    intro buf h hs
    have hb : buf = [] := List.eq_nil_of_length_eq_zero (Nat.le_zero.mp h)
    subst hb
    rw [absorb_small hs [] (by simp)]
    simp
  | succ n ih =>
    intro buf h hs
    by_cases h64 : 64 ≤ buf.length
    · rw [absorb_step _ _ h64]
      exact ih (buf.drop 64) (by simp only [List.length_drop]; omega) _
    · rw [absorb_small hs buf (by omega)]
      show buf.length < 64
      omega

/-- Two consecutive updates absorb the concatenation. -/
theorem sha256Update_append (c : Sha256Ctx) (a b : List Nat) :
    sha256Update (sha256Update c a) b = sha256Update c (a ++ b) := by
  unfold sha256Update
  have h := absorb_append (c.pending ++ a).length (c.pending ++ a) (Nat.le_refl _) c.hs b
  simp only
  rw [show c.pending ++ (a ++ b) = (c.pending ++ a) ++ b from (List.append_assoc _ _ _).symm]
  rw [h]
  simp [Nat.add_assoc]

/-- Updating with nothing is the identity on well-buffered contexts. -/
theorem sha256Update_nil (c : Sha256Ctx) (h : c.pending.length < 64) :
    sha256Update c [] = c := by
  unfold sha256Update
  rw [List.append_nil, absorb_small _ _ h]
  rfl

/-- An update always leaves a pending buffer shorter than a block. -/
theorem sha256Update_pending (c : Sha256Ctx) (bs : List Nat) :
    (sha256Update c bs).pending.length < 64 := by
  unfold sha256Update
  exact absorb_snd_lt _ _ (Nat.le_refl _) _

/-- Folding updates over chunks is one update over the flattened bytes. -/
theorem foldl_update_flatten : ∀ (cs : List (List Nat)) (c : Sha256Ctx),
    c.pending.length < 64 → cs.foldl sha256Update c = sha256Update c cs.flatten := by
  intro cs
  induction cs with
  | nil =>
    intro c h
    simp only [List.foldl_nil, List.flatten_nil]
    exact (sha256Update_nil c h).symm
  | cons x cs ih =>
    intro c h
    simp only [List.foldl_cons, List.flatten_cons]
    rw [ih (sha256Update c x) (sha256Update_pending c x), sha256Update_append]

/-- Rechunking loses no bytes. -/
theorem chunksGo_flatten : ∀ (fuel k : Nat) (bs : List Nat), bs.length ≤ fuel →
    1 ≤ k → (chunksGo fuel k bs).flatten = bs := by
  intro fuel
  induction fuel with
  | zero =>
    intro k bs h _
    have hb : bs = [] := List.eq_nil_of_length_eq_zero (Nat.le_zero.mp h)
    subst hb
    rfl
  | succ n ih =>
    intro k bs h hk
    cases bs with
    | nil => simp [chunksGo]
    | cons x xs =>
      simp only [chunksGo, List.flatten_cons]
      rw [ih k ((x :: xs).drop k) (by simp only [List.length_drop]; simp at h ⊢; omega) hk]
      exact List.take_append_drop k (x :: xs)

/-- The streamed 4096-byte-chunk digest of _calculate_sha256 equals the
digest of the whole byte string. -/
theorem calculate_sha256_eq (bs : List Nat) : calculate_sha256 bs = sha256HexBytes bs := by
  unfold calculate_sha256 sha256HexBytes
  rw [foldl_update_flatten _ sha256Start (by simp [sha256Start])]
  rw [chunksGo_flatten bs.length 4096 bs (Nat.le_refl _) (by omega)]

/-! ## Session state machine lemmas and claims -/

/-- Device-connect handling never writes the session globals. -/
theorem handle_device_connected_fst (ctx : DevCtx) (sess : Session) (d : USBDevice) :
    (handle_device_connected ctx sess d).1 = sess := by
  unfold handle_device_connected
  split
  · rfl
  · split
    · rfl
    · split
      · rfl
      · rfl

/-- Invariant transport for the session fold: the implementation fold and
the specification fold stay in lock step, and the two globals stay
some/none together. -/
theorem session_fold_inv (ctx : DevCtx) :
    ∀ (es : List Event) (s : Session) (b : Bool),
    (∀ e ∈ es, wfEvent e) →
    s.current_firmware_path.isSome = b →
    s.current_usb_storage.isSome = s.current_firmware_path.isSome →
    (es.foldl (stepSession ctx) s).current_firmware_path.isSome = es.foldl specStep b
    ∧ (es.foldl (stepSession ctx) s).current_usb_storage.isSome
        = (es.foldl (stepSession ctx) s).current_firmware_path.isSome := by
  intro es
  induction es with
  | nil => intro s b _ hb hss; exact ⟨hb, hss⟩
  | cons e es ih =>
    intro s b hwf hb hss
    have hwfe : wfEvent e := hwf e (List.mem_cons_self e es)
    have hwfes : ∀ x ∈ es, wfEvent x := fun x hx => hwf x (List.mem_cons_of_mem e hx)
    simp only [List.foldl_cons]
    cases e with
    | storageMounted storage result =>
      by_cases hs : result.success = true
      · have hfw : result.firmware_path ≠ none := hwfe hs
        apply ih
        · exact hwfes
        · simp [stepSession, handle_storage_mounted_v, hs, specStep,
                Option.isSome_iff_ne_none, hfw]
        · simp [stepSession, handle_storage_mounted_v, hs, specStep,
                Option.isSome_iff_ne_none, hfw]
      · apply ih
        · exact hwfes
        · simpa [stepSession, handle_storage_mounted_v, hs, specStep] using hb
        · simpa [stepSession, handle_storage_mounted_v, hs, specStep] using hss
    | storageRemoved node =>
      by_cases hs : s.current_usb_storage.isSome = true
      · apply ih
        · exact hwfes
        · simp [stepSession, handle_storage_removed, hs, specStep]
        · simp [stepSession, handle_storage_removed, hs, specStep]
      · have hpath : s.current_firmware_path.isSome = false := by
          rw [← hss]; simpa using hs
        apply ih
        · exact hwfes
        · simp only [stepSession, handle_storage_removed]
          rw [if_neg (by simpa using hs)]
          simp [specStep, hpath]
        · simp only [stepSession, handle_storage_removed]
          rw [if_neg (by simpa using hs)]
          exact hss
    | deviceConnected d =>
      apply ih
      · exact hwfes
      · simpa [stepSession, handle_device_connected_fst, specStep] using hb
      · simpa [stepSession, handle_device_connected_fst, specStep] using hss
    | deviceDisconnected d =>
      apply ih
      · exact hwfes
      · simpa [stepSession, specStep] using hb
      · simpa [stepSession, specStep] using hss

/-- C1.  Session invariant: after any well-formed event history the
trusted firmware path (current_firmware_path) is non-empty exactly when
the most recent verification succeeded and no storage removal or
verification failure has since cleared it (the trustedSpec fold); and a
storage-removal event arriving while a volume is active clears both
current_firmware_path and current_usb_storage. -/
theorem session_trusted_firmware_invariant :
    (∀ (ctx : DevCtx) (es : List Event), (∀ e ∈ es, wfEvent e) →
      ((runSession ctx es).current_firmware_path ≠ none ↔ trustedSpec es = true))
    ∧ (∀ (sess : Session) (st : USBStorage) (node : String),
        sess.current_usb_storage = some st →
        handle_storage_removed sess node
          = { current_usb_storage := none, current_firmware_path := none }) := by
  constructor
  · intro ctx es hwf
    have h := (session_fold_inv ctx es initSession false hwf (by rfl) (by rfl)).1
    rw [← Option.isSome_iff_ne_none]
    unfold runSession trustedSpec
    rw [h]
  · intro sess st node h
    unfold handle_storage_removed
    rw [if_pos (by rw [h]; rfl)]

/-- A concrete device-context used by closed instantiations. -/
def ctxW : DevCtx :=
  ⟨mkValidator "10c4" "ea60", fun _ => none, fun _ _ => ⟨false, "no tool", 0, 1⟩⟩

/-- A concrete storage volume used by closed instantiations. -/
def stW : USBStorage := ⟨"/dev/sda1", "/media/pi/sda1", "Kingston", "DataTraveler"⟩

/-- A concrete successful verification verdict used by closed
instantiations. -/
def okVerdict : VerificationResult :=
  { success := true, message := "USB device verified successfully",
    firmware_path := some "/media/pi/sda1/firmware.bin" }

/-- Witness for C1 at a concrete two-event history (verified mount, then
removal) and a concrete active session. -/
theorem session_trusted_firmware_invariant_witness :
    ((runSession ctxW [Event.storageMounted stW okVerdict, Event.storageRemoved "/dev/sda1"]
        ).current_firmware_path ≠ none
      ↔ trustedSpec [Event.storageMounted stW okVerdict, Event.storageRemoved "/dev/sda1"] = true)
    ∧ (handle_storage_removed ⟨some stW, some "/media/pi/sda1/firmware.bin"⟩ "/dev/sda1"
        = { current_usb_storage := none, current_firmware_path := none }) := by
  constructor
  · refine session_trusted_firmware_invariant.1 ctxW _ ?_
    intro e he
    simp only [List.mem_cons, List.not_mem_nil, or_false] at he
    rcases he with rfl | rfl
    · intro _; exact fun hc => Option.noConfusion hc
    · exact trivial
  · exact session_trusted_firmware_invariant.2 ⟨some stW, some "/media/pi/sda1/firmware.bin"⟩
      stW "/dev/sda1" rfl

/-- C10.  Frame property of a failed verification: when the verifier
returns a failed verdict for the mounted volume, handle_storage_mounted
leaves the whole session (current_usb_storage and current_firmware_path)
exactly as it was. -/
theorem failed_verification_frame (verify : String → VerificationResult) (sess : Session)
    (storage : USBStorage) (h : (verify storage.mount_point).success = false) :
    handle_storage_mounted verify sess storage = sess := by
  unfold handle_storage_mounted handle_storage_mounted_v
  rw [h]
  simp

/-- Witness for C10: a failing verifier leaves a concrete session, with a
firmware path trusted from an earlier volume, untouched. -/
theorem failed_verification_frame_witness :
    handle_storage_mounted (fun _ => ⟨false, "Missing required files: firmware.bin", none, none, none⟩)
      ⟨some stW, some "/media/pi/sdb1/firmware.bin"⟩ stW
      = ⟨some stW, some "/media/pi/sdb1/firmware.bin"⟩ :=
  failed_verification_frame (fun _ => ⟨false, "Missing required files: firmware.bin", none, none, none⟩)
    ⟨some stW, some "/media/pi/sdb1/firmware.bin"⟩ stW rfl

/-- C4.  A connect event for the matching target device while no firmware
path is trusted is refused: the handler makes no flash-engine call, drives
the lamp to error and then back to idle, and leaves the session exactly as
it was. -/
theorem refuse_flash_without_firmware (ctx : DevCtx) (sess : Session) (d : USBDevice)
    (hv : is_valid_device ctx.validator d = true)
    (hf : sess.current_firmware_path = none) :
    handle_device_connected ctx sess d
      = (sess, [Lamp.validating, Lamp.error, Lamp.idle], []) := by
  unfold handle_device_connected
  rw [hv, hf]
  simp

/-- Witness for C4 at a concrete matching device (ids differing only in
case) and the initial empty session. -/
theorem refuse_flash_without_firmware_witness :
    handle_device_connected ctxW initSession ⟨"1-1.2", "", "10C4", "EA60"⟩
      = (initSession, [Lamp.validating, Lamp.error, Lamp.idle], []) :=
  refuse_flash_without_firmware ctxW initSession ⟨"1-1.2", "", "10C4", "EA60"⟩ (by decide) rfl

/-- C8.  Storage events are strictly prioritized: an iteration of the
orchestrator loop that finds a storage event handles it and does not poll
the device queue, which therefore stays untouched; the device queue is
polled exactly in the iterations whose storage queue is empty. -/
theorem storage_priority_loop (verify : String → VerificationResult) (ctx : DevCtx)
    (st : LoopState) :
    (st.storageQ ≠ [] →
      (loopIter verify ctx st).2.devicePolled = false
      ∧ (loopIter verify ctx st).2.storageHandled = true
      ∧ (loopIter verify ctx st).1.deviceQ = st.deviceQ
      ∧ (loopIter verify ctx st).1.storageQ = st.storageQ.tail)
    ∧ ((loopIter verify ctx st).2.devicePolled = true ↔ st.storageQ = []) := by
  obtain ⟨sq, dq, ss⟩ := st
  cases sq with
  | nil =>
    refine ⟨fun h => absurd rfl h, ?_⟩
    cases dq <;> simp [loopIter]
  | cons e rest =>
    refine ⟨fun _ => ?_, ?_⟩
    · cases e <;> simp [loopIter]
    · cases e <;> simp [loopIter]

/-- Witness for C8 at a concrete loop state holding one storage event and
one device event. -/
theorem storage_priority_loop_witness :
    (([StorageEvent.removed "/dev/sda1"] : List StorageEvent) ≠ [] →
      (loopIter (fun _ => okVerdict) ctxW
          ⟨[StorageEvent.removed "/dev/sda1"],
           [DeviceEvent.connected ⟨"1-1.2", "", "10c4", "ea60"⟩], initSession⟩).2.devicePolled
        = false
      ∧ (loopIter (fun _ => okVerdict) ctxW
          ⟨[StorageEvent.removed "/dev/sda1"],
           [DeviceEvent.connected ⟨"1-1.2", "", "10c4", "ea60"⟩], initSession⟩).2.storageHandled
        = true
      ∧ (loopIter (fun _ => okVerdict) ctxW
          ⟨[StorageEvent.removed "/dev/sda1"],
           [DeviceEvent.connected ⟨"1-1.2", "", "10c4", "ea60"⟩], initSession⟩).1.deviceQ
        = [DeviceEvent.connected ⟨"1-1.2", "", "10c4", "ea60"⟩]
      ∧ (loopIter (fun _ => okVerdict) ctxW
          ⟨[StorageEvent.removed "/dev/sda1"],
           [DeviceEvent.connected ⟨"1-1.2", "", "10c4", "ea60"⟩], initSession⟩).1.storageQ
        = ([StorageEvent.removed "/dev/sda1"] : List StorageEvent).tail)
    ∧ ((loopIter (fun _ => okVerdict) ctxW
          ⟨[StorageEvent.removed "/dev/sda1"],
           [DeviceEvent.connected ⟨"1-1.2", "", "10c4", "ea60"⟩], initSession⟩).2.devicePolled
        = true ↔ ([StorageEvent.removed "/dev/sda1"] : List StorageEvent) = []) :=
  storage_priority_loop (fun _ => okVerdict) ctxW
    ⟨[StorageEvent.removed "/dev/sda1"],
     [DeviceEvent.connected ⟨"1-1.2", "", "10c4", "ea60"⟩], initSession⟩

/-! ## unmount idempotence and port resolution claims -/

/-- runUmount preserves the timeout oracle. -/
theorem runUmount_timeout (w : MountWorld) (mp q : String) :
    ((runUmount w mp).2).umountTimesOut q = w.umountTimesOut q := by
  unfold runUmount
  split <;> rfl

/-- The umount phase preserves the timeout oracle. -/
theorem umountPhase_timeout (w : MountWorld) (mp q : String) :
    ((umountPhase w mp)).umountTimesOut q = w.umountTimesOut q := by
  unfold umountPhase
  split
  · exact runUmount_timeout w mp q
  · rw [runUmount_timeout, runUmount_timeout]

/-- The rmdir phase preserves the timeout oracle and the mount table. -/
theorem rmdirPhase_timeout (w : MountWorld) (mp q : String) :
    ((rmdirPhase w mp)).umountTimesOut q = w.umountTimesOut q := by
  unfold rmdirPhase
  split <;> rfl

/-- The rmdir phase does not touch the mount table. -/
theorem rmdirPhase_mounted (w : MountWorld) (mp q : String) :
    ((rmdirPhase w mp)).mounted q = w.mounted q := by
  unfold rmdirPhase
  split <;> rfl

/-- The umount phase leaves the target path unmounted. -/
theorem umountPhase_unmounts (w : MountWorld) (mp : String) :
    ((umountPhase w mp)).mounted mp = false := by
  unfold umountPhase runUmount
  by_cases hm : w.mounted mp = true
  · rw [if_pos hm]
    simp
  · rw [if_neg hm]
    simp only
    rw [if_neg (by omega), if_neg hm]
    simpa using hm

/-- Threading unmount_device through a world preserves the timeout oracle. -/
theorem unmount_device_timeout_stable (w : MountWorld) (mp q : String) :
    ((unmount_device w mp).2).umountTimesOut q = w.umountTimesOut q := by
  unfold unmount_device
  split
  · rfl
  · rw [rmdirPhase_timeout, umountPhase_timeout]

/-- C9.  unmount is idempotent at the interface: a second unmount of an
already-unmounted mount point raises nothing (every exception branch of
the source is caught, so the embedding is a total function) and returns
the same result as the first call; absent a subprocess timeout both calls
return True and the first call leaves the point unmounted. -/
theorem unmount_idempotent (w : MountWorld) (mp : String) :
    (unmount_device (unmount_device w mp).2 mp).1 = (unmount_device w mp).1
    ∧ (w.umountTimesOut mp = false →
        (unmount_device w mp).1 = true
        ∧ ((unmount_device w mp).2).mounted mp = false) := by
  refine ⟨?_, fun ht => ⟨?_, ?_⟩⟩
  · by_cases ht : w.umountTimesOut mp = true
    · have h2 : ((unmount_device w mp).2).umountTimesOut mp = true := by
        rw [unmount_device_timeout_stable]; exact ht
      conv_lhs => rw [unmount_device, if_pos h2]
      conv_rhs => rw [unmount_device, if_pos ht]
    · have h2 : ¬ ((unmount_device w mp).2).umountTimesOut mp = true := by
        rw [unmount_device_timeout_stable]; exact ht
      conv_lhs => rw [unmount_device, if_neg h2]
      conv_rhs => rw [unmount_device, if_neg ht]
  · rw [unmount_device, if_neg (by rw [ht]; exact Bool.false_ne_true)]
  · rw [unmount_device, if_neg (by rw [ht]; exact Bool.false_ne_true)]
    show (rmdirPhase (umountPhase w mp) mp).mounted mp = false
    rw [rmdirPhase_mounted, umountPhase_unmounts]

/-- A concrete world with one mounted volume and no subprocess timeouts. -/
def worldW : MountWorld :=
  ⟨fun p => p == "/media/pi/sda1", fun p => p == "/media/pi/sda1", fun _ => false⟩

/-- Witness for C9 at a concrete mounted world. -/
theorem unmount_idempotent_witness :
    ((unmount_device (unmount_device worldW "/media/pi/sda1").2 "/media/pi/sda1").1
        = (unmount_device worldW "/media/pi/sda1").1
      ∧ (worldW.umountTimesOut "/media/pi/sda1" = false →
          (unmount_device worldW "/media/pi/sda1").1 = true
          ∧ ((unmount_device worldW "/media/pi/sda1").2).mounted "/media/pi/sda1" = false))
    ∧ (unmount_device worldW "/media/pi/sda1").1 = true :=
  ⟨unmount_idempotent worldW "/media/pi/sda1",
   ((unmount_idempotent worldW "/media/pi/sda1").2 rfl).1⟩

/-- The filesystem of the C7 failing input: the first conventional serial
node exists together with its sysfs directory, but its USB parent is a
different physical device. -/
def portEnvBug : PortEnv :=
  ⟨fun p => p == "/dev/ttyUSB0" || p == "/sys/class/tty/ttyUSB0/device",
   [⟨some "/dev/ttyUSB0", some ("1a2b", "3c4d")⟩]⟩

/-- The C7 target device: matching ids but no serial device node of its
own, so resolution falls through to the conventional-name probe. -/
def devBug : USBDevice := ⟨"1-1.2", "", "10c4", "ea60"⟩

/-- C7 (code bug).  The conventional-name probe of get_device_port returns
/dev/ttyUSB0 after checking only that its sysfs directory exists: the
vendor/product confirmation the surrounding comments and the spec call
for is never performed, so a node belonging to a different physical
device (parent ids 1a2b:3c4d against the target 10c4:ea60) is returned
anyway. -/
theorem port_probe_skips_parent_check :
    get_device_port portEnvBug devBug = some "/dev/ttyUSB0"
    ∧ (∀ t ∈ portEnvBug.ttys, t.node = some "/dev/ttyUSB0"
        → t.parentIds ≠ some (devBug.vid, devBug.pid)) := by
  constructor
  · rfl
  · decide

/-! ## Verification pipeline claims -/

/-- C5.  With require_certificate and verify_checksum both disabled and a
manifest that parses, verification succeeds exactly when the manifest
file and the firmware-image file exist under the mount point (signature
and checksum files are irrelevant: the environment is arbitrary), and a
successful verdict carries the manifest, the firmware path joined under
the mount point, and the mount point. -/
theorem verify_minimal_config_iff (env : FsEnv) (ver : VerifierState) (cfg : VerifierConfig)
    (mp : String) (info : USBDeviceInfo)
    (hreq : cfg.require_certificate = false)
    (hchk : cfg.verify_checksum = false)
    (hload : load_device_info env cfg mp = some info) :
    ((verify_usb_device env ver cfg mp).success = true ↔
      (env.fileExists (pathJoin mp cfg.device_info_path) = true
       ∧ env.fileExists (pathJoin mp cfg.usb_path) = true))
    ∧ ((verify_usb_device env ver cfg mp).success = true →
        verify_usb_device env ver cfg mp
          = { success := true, message := "USB device verified successfully",
              device_info := some info,
              firmware_path := some (pathJoin mp cfg.usb_path),
              mount_point := some mp }) := by
  cases hb1 : env.fileExists (pathJoin mp cfg.device_info_path)
    <;> cases hb2 : env.fileExists (pathJoin mp cfg.usb_path)
    <;> simp [verify_usb_device, verify_usb_device_instr, check_file_structure,
              hreq, hchk, hload, hb1, hb2]

/-- A concrete parsed manifest for the closed instantiations. -/
def infoW : USBDeviceInfo := ⟨"dev-001", "ESP32 Sensor", "1.2.3", "2024-01-01", "esp32"⟩

/-- Verifier configuration with both security features off. -/
def cfgMin : VerifierConfig :=
  ⟨false, false, "device_info.json", "firmware.bin", "firmware.sig", "firmware.sha256"⟩

/-- A filesystem holding only the manifest and the firmware image, with a
parser that accepts the manifest. -/
def envMin : FsEnv :=
  ⟨fun p => p == "/mnt/usb/device_info.json" || p == "/mnt/usb/firmware.bin",
   fun _ => some [123], fun _ => some infoW, fun _ _ _ => SigOutcome.exit 0⟩

/-- Witness for C5 at the concrete minimal environment. -/
theorem verify_minimal_config_iff_witness :
    ((verify_usb_device envMin ⟨"keys/public.pem", true⟩ cfgMin "/mnt/usb").success = true ↔
      (envMin.fileExists (pathJoin "/mnt/usb" cfgMin.device_info_path) = true
       ∧ envMin.fileExists (pathJoin "/mnt/usb" cfgMin.usb_path) = true))
    ∧ ((verify_usb_device envMin ⟨"keys/public.pem", true⟩ cfgMin "/mnt/usb").success = true →
        verify_usb_device envMin ⟨"keys/public.pem", true⟩ cfgMin "/mnt/usb"
          = { success := true, message := "USB device verified successfully",
              device_info := some infoW,
              firmware_path := some (pathJoin "/mnt/usb" cfgMin.usb_path),
              mount_point := some "/mnt/usb" }) :=
  verify_minimal_config_iff envMin ⟨"keys/public.pem", true⟩ cfgMin "/mnt/usb" infoW
    rfl rfl rfl

/-- Verifier configuration requiring the certificate, checksum off. -/
def cfgC2 : VerifierConfig :=
  ⟨true, false, "device_info.json", "firmware.bin", "firmware.sig", "firmware.sha256"⟩

/-- The C2 filesystem: the public key is absent, the volume carries only a
parseable manifest and the firmware image (no signature file). -/
def envC2 : FsEnv :=
  ⟨fun p => p == "/mnt/usb/device_info.json" || p == "/mnt/usb/firmware.bin",
   fun _ => some [123], fun _ => some infoW, fun _ _ _ => SigOutcome.exit 1⟩

/-- Counterexample to C2 as stated: with require_certificate on and the
public key absent, a volume carrying only a parseable manifest and the
firmware image does NOT verify successfully — the file-structure check
still demands the signature file and fails. -/
theorem cert_missing_pubkey_counterexample :
    (mkVerifier envC2 "keys/public.pem").security_enabled = false
    ∧ cfgC2.require_certificate = true
    ∧ cfgC2.verify_checksum = false
    ∧ load_device_info envC2 cfgC2 "/mnt/usb" = some infoW
    ∧ envC2.fileExists (pathJoin "/mnt/usb" cfgC2.device_info_path) = true
    ∧ envC2.fileExists (pathJoin "/mnt/usb" cfgC2.usb_path) = true
    ∧ envC2.fileExists (pathJoin "/mnt/usb" cfgC2.certificate_path) = false
    ∧ (verify_usb_device envC2 (mkVerifier envC2 "keys/public.pem") cfgC2 "/mnt/usb").success
        = false
    ∧ (verify_usb_device envC2 (mkVerifier envC2 "keys/public.pem") cfgC2 "/mnt/usb").message
        = "Missing required files: firmware.sig" := by
  refine ⟨rfl, rfl, rfl, rfl, rfl, rfl, rfl, rfl, rfl⟩

/-- C2 amended.  When require_certificate is on but the public key is
absent, the signature-verification step indeed never runs, but the
signature file is still required by the file-structure check: with
verify_checksum off and a parseable manifest, verification succeeds
exactly when the manifest, the firmware image AND the signature file all
exist under the mount point. -/
theorem cert_missing_pubkey_amended (env : FsEnv) (pk : String) (cfg : VerifierConfig)
    (mp : String) (info : USBDeviceInfo)
    (hsec : env.fileExists pk = false)
    (hreq : cfg.require_certificate = true)
    (hchk : cfg.verify_checksum = false)
    (hload : load_device_info env cfg mp = some info) :
    (verify_usb_device_instr env (mkVerifier env pk) cfg mp).2 = false
    ∧ ((verify_usb_device env (mkVerifier env pk) cfg mp).success = true ↔
        (env.fileExists (pathJoin mp cfg.device_info_path) = true
         ∧ env.fileExists (pathJoin mp cfg.usb_path) = true
         ∧ env.fileExists (pathJoin mp cfg.certificate_path) = true)) := by
  cases hb1 : env.fileExists (pathJoin mp cfg.device_info_path)
    <;> cases hb2 : env.fileExists (pathJoin mp cfg.usb_path)
    <;> cases hb3 : env.fileExists (pathJoin mp cfg.certificate_path)
    <;> simp [verify_usb_device, verify_usb_device_instr, check_file_structure, mkVerifier,
              hsec, hreq, hchk, hload, hb1, hb2, hb3]

/-- The C2 witness filesystem: manifest, firmware image and signature
file all present, public key still absent. -/
def envC2sig : FsEnv :=
  ⟨fun p => p == "/mnt/usb/device_info.json" || p == "/mnt/usb/firmware.bin"
      || p == "/mnt/usb/firmware.sig",
   fun _ => some [123], fun _ => some infoW, fun _ _ _ => SigOutcome.exit 1⟩

/-- Witness for the amended C2: with the signature file also present the
verdict flips to success, still without running the signature step. -/
theorem cert_missing_pubkey_amended_witness :
    ((verify_usb_device_instr envC2sig (mkVerifier envC2sig "keys/public.pem")
        cfgC2 "/mnt/usb").2 = false)
    ∧ ((verify_usb_device envC2sig (mkVerifier envC2sig "keys/public.pem")
          cfgC2 "/mnt/usb").success = true ↔
        (envC2sig.fileExists (pathJoin "/mnt/usb" cfgC2.device_info_path) = true
         ∧ envC2sig.fileExists (pathJoin "/mnt/usb" cfgC2.usb_path) = true
         ∧ envC2sig.fileExists (pathJoin "/mnt/usb" cfgC2.certificate_path) = true)) :=
  cert_missing_pubkey_amended envC2sig "keys/public.pem" cfgC2 "/mnt/usb" infoW
    rfl rfl rfl rfl

/-- Every byte of a word's hex rendering is a lowercase hex digit. -/
theorem wordHexBytes_range (b w : Nat) (h : b ∈ wordHexBytes w) :
    (48 ≤ b ∧ b ≤ 57) ∨ (97 ≤ b ∧ b ≤ 102) := by
  unfold wordHexBytes at h
  rw [List.mem_map] at h
  obtain ⟨i, _, rfl⟩ := h
  have hlt : (w >>> ((7 - i) * 4)) % 16 < 16 := Nat.mod_lt _ (by omega)
  unfold hexDigit
  split <;> omega

/-- Every byte of the folded hex rendering comes from some word. -/
theorem mem_hex_foldr (b : Nat) : ∀ (ws : List Nat),
    b ∈ ws.foldr (fun w acc => wordHexBytes w ++ acc) [] → ∃ w, b ∈ wordHexBytes w := by
  intro ws
  induction ws with
  | nil => intro h; exact absurd h (List.not_mem_nil b)
  | cons w ws ih =>
    intro h
    rw [List.foldr_cons, List.mem_append] at h
    rcases h with h | h
    · exact ⟨w, h⟩
    · exact ih h

/-- C6.  The checksum step succeeds exactly when the lowercase hex
SHA-256 digest of the firmware image — computed by the source through
4096-byte streamed chunks, equal to the whole-message digest by
calculate_sha256_eq — is byte-for-byte equal to the checksum file text
with surrounding whitespace stripped; a mismatch yields a failed verdict,
and every digest byte is a lowercase hex digit. -/
theorem checksum_sha256_iff (env : FsEnv) (cfg : VerifierConfig) (mp : String)
    (content image : List Nat)
    (hc : env.readBytes (pathJoin mp cfg.checksum_path) = some content)
    (hf : env.readBytes (pathJoin mp cfg.usb_path) = some image) :
    ((verify_firmware_checksum env cfg mp).success = true ↔
      sha256HexBytes image = stripBytes content)
    ∧ (sha256HexBytes image ≠ stripBytes content →
        (verify_firmware_checksum env cfg mp).success = false)
    ∧ (∀ b ∈ sha256HexBytes image, (48 ≤ b ∧ b ≤ 57) ∨ (97 ≤ b ∧ b ≤ 102)) := by
  refine ⟨?_, ?_, ?_⟩
  · unfold verify_firmware_checksum
    rw [hc, hf]
    dsimp only
    rw [calculate_sha256_eq]
    split <;> simp_all
  · intro hne
    unfold verify_firmware_checksum
    rw [hc, hf]
    dsimp only
    rw [calculate_sha256_eq]
    split <;> simp_all
  · intro b hb
    unfold sha256HexBytes sha256Final at hb
    obtain ⟨w, hw⟩ := mem_hex_foldr b _ hb
    exact wordHexBytes_range b w hw

/-- The C6 witness filesystem: an empty firmware image and a checksum
file holding its digest followed by a newline. -/
def envChk : FsEnv :=
  ⟨fun _ => true,
   fun p => if p == "/mnt/usb/firmware.sha256" then some (sha256HexBytes [] ++ [10])
            else some [],
   fun _ => some infoW, fun _ _ _ => SigOutcome.exit 0⟩

/-- Witness for C6 at the concrete empty image and newline-terminated
checksum file. -/
theorem checksum_sha256_iff_witness :
    (((verify_firmware_checksum envChk cfgMin "/mnt/usb").success = true ↔
       sha256HexBytes [] = stripBytes (sha256HexBytes [] ++ [10]))
     ∧ (sha256HexBytes [] ≠ stripBytes (sha256HexBytes [] ++ [10]) →
         (verify_firmware_checksum envChk cfgMin "/mnt/usb").success = false)
     ∧ (∀ b ∈ sha256HexBytes [], (48 ≤ b ∧ b ≤ 57) ∨ (97 ≤ b ∧ b ≤ 102)))
    ∧ (verify_firmware_checksum envChk cfgMin "/mnt/usb").success = true :=
  ⟨checksum_sha256_iff envChk cfgMin "/mnt/usb" (sha256HexBytes [] ++ [10]) [] rfl rfl,
   by decide⟩

/-! ## Retry-flash engine claims -/

/-- Whether a tool outcome is one of the three failure kinds (nonzero
exit, timeout, tool not found). -/
def toolFails : ToolOutcome → Bool
  | .exit 0 => false
  | _ => true

/-- Whether an action is a tool invocation. -/
def isInvoke : FlashAction → Bool
  | .invoke _ => true
  | _ => false

/-- Whether an action is an inter-attempt wait. -/
def isWait : FlashAction → Bool
  | .wait _ => true
  | _ => false

/-- Number of tool invocations in a trace. -/
def countInvokes (tr : List FlashAction) : Nat := tr.countP isInvoke

/-- Number of inter-attempt waits in a trace. -/
def countWaits (tr : List FlashAction) : Nat := tr.countP isWait

/-- A single attempt succeeds exactly when the tool exits 0. -/
theorem execute_flash_success (cfg : FlasherConfig) (behave : Nat → ToolOutcome)
    (port : String) (n : Nat) :
    (execute_flash cfg behave port n).success = !toolFails (behave n) := by
  cases hb : behave n with
  | exit code => cases code <;> simp [execute_flash, toolFails, hb]
  | timeout => simp [execute_flash, toolFails, hb]
  | notFound => simp [execute_flash, toolFails, hb]

/-- A single attempt reports its own attempt number. -/
theorem execute_flash_attempt (cfg : FlasherConfig) (behave : Nat → ToolOutcome)
    (port : String) (n : Nat) :
    (execute_flash cfg behave port n).attempt = n := by
  cases hb : behave n with
  | exit code => cases code <;> simp [execute_flash, hb]
  | timeout => simp [execute_flash, hb]
  | notFound => simp [execute_flash, hb]

/-- The retry loop under an eventually-successful behaviour: failures on
the first j attempts and success on the next return that attempt's
result, after exactly j + 1 invocations. -/
theorem flashLoop_success (cfg : FlasherConfig) (behave : Nat → ToolOutcome) (port : String) :
    ∀ (fuel attempt j : Nat) (le : Option String), j < fuel →
    (∀ i, attempt ≤ i → i < attempt + j → toolFails (behave i) = true) →
    toolFails (behave (attempt + j)) = false →
    (flashLoop cfg behave port fuel attempt le).1
      = execute_flash cfg behave port (attempt + j)
    ∧ countInvokes (flashLoop cfg behave port fuel attempt le).2 = j + 1 := by
  intro fuel
  induction fuel with
  | zero => intro attempt j le hj _ _; omega
  | succ n ih =>
    intro attempt j le hj hfail hsucc
    cases j with
    | zero =>
      have hs : (execute_flash cfg behave port attempt).success = true := by
        rw [execute_flash_success]
        rw [Nat.add_zero] at hsucc
        rw [hsucc]
        rfl
      simp only [flashLoop, hs, if_true]
      refine ⟨by rw [Nat.add_zero], ?_⟩
      simp [countInvokes, List.countP_cons, isInvoke]
    | succ j' =>
      have hf : (execute_flash cfg behave port attempt).success = false := by
        rw [execute_flash_success, hfail attempt (Nat.le_refl _) (by omega)]
        rfl
      have hn : n ≠ 0 := by omega
      have ihx := ih (attempt + 1) j' (some (execute_flash cfg behave port attempt).message)
        (by omega)
        (fun i h1 h2 => hfail i (by omega) (by omega))
        (by have he : attempt + 1 + j' = attempt + (j' + 1) := by omega
            rw [he]; exact hsucc)
      simp only [flashLoop, hf, Bool.false_eq_true, if_false, hn, if_neg hn]
      have he : attempt + 1 + j' = attempt + (j' + 1) := by omega
      rw [he] at ihx
      refine ⟨ihx.1, ?_⟩
      simp only [countInvokes, List.countP_append, List.countP_cons, List.countP_nil] at ihx ⊢
      simp [isInvoke] at ihx ⊢
      omega

/-- The retry loop under an always-failing behaviour: the final failure
result carries the last attempt's error, the tool is invoked once per
unit of fuel, waits happen between consecutive attempts only and with the
configured delay, and the last recorded action is the last invocation. -/
theorem flashLoop_fail (cfg : FlasherConfig) (behave : Nat → ToolOutcome) (port : String) :
    ∀ (fuel attempt : Nat) (le : Option String), 1 ≤ fuel →
    (∀ i, attempt ≤ i → i < attempt + fuel → toolFails (behave i) = true) →
    (flashLoop cfg behave port fuel attempt le).1
      = flashFailResult cfg (some (execute_flash cfg behave port (attempt + fuel - 1)).message)
    ∧ countInvokes (flashLoop cfg behave port fuel attempt le).2 = fuel
    ∧ countWaits (flashLoop cfg behave port fuel attempt le).2 = fuel - 1
    ∧ (flashLoop cfg behave port fuel attempt le).2.getLast?
        = some (FlashAction.invoke (attempt + fuel - 1))
    ∧ (∀ d, FlashAction.wait d ∈ (flashLoop cfg behave port fuel attempt le).2
        → d = cfg.retry_delay) := by
  intro fuel
  induction fuel with
  | zero => intro attempt le h _; omega
  | succ n ih =>
    intro attempt le _ hfail
    have hf : (execute_flash cfg behave port attempt).success = false := by
      rw [execute_flash_success, hfail attempt (Nat.le_refl _) (by omega)]
      rfl
    cases n with
    | zero =>
      rw [flashLoop.eq_def]
      dsimp only
      rw [if_neg (by simp [hf]), if_pos rfl]
      rw [show attempt + 1 - 1 = attempt from by omega]
      refine ⟨rfl, ?_, ?_, ?_, ?_⟩
      · simp [countInvokes, List.countP_cons, isInvoke]
      · simp [countWaits, List.countP_cons, isWait]
      · rfl
      · intro d hd
        simp only [List.mem_cons, List.not_mem_nil, or_false] at hd
        rcases hd with h | h <;> simp at h
    | succ m =>
      have ihx := ih (attempt + 1) (some (execute_flash cfg behave port attempt).message)
        (by omega)
        (fun i h1 h2 => hfail i (by omega) (by omega))
      have he : attempt + 1 + (m + 1) - 1 = attempt + (m + 1 + 1) - 1 := by omega
      rw [he] at ihx
      rw [flashLoop.eq_def]
      dsimp only
      rw [if_neg (by simp [hf]), if_neg (by omega : ¬ (m + 1 = 0))]
      refine ⟨ihx.1, ?_, ?_, ?_, ?_⟩
      · have h2 := ihx.2.1
        rw [countInvokes] at h2 ⊢
        simp [List.countP_append, List.countP_cons, List.countP_nil, isInvoke, h2]
        try omega
      · have h2 := ihx.2.2.1
        rw [countWaits] at h2 ⊢
        simp [List.countP_append, List.countP_cons, List.countP_nil, isWait, h2]
        try omega
      · rw [List.getLast?_append, ihx.2.2.2.1]
        rfl
      · intro d hd
        rw [List.mem_append] at hd
        rcases hd with h | h
        · rw [List.mem_append] at h
          rcases h with h | h
          · simp only [List.mem_cons, List.not_mem_nil, or_false] at h
            rcases h with h | h <;> simp at h
          · simp only [List.mem_cons, List.not_mem_nil, or_false] at h
            injection h
        · exact ihx.2.2.2.2 d h

/-- C3.  Retry policy of flash(): with retry_count at least 1, a tool
failing its first k attempts and succeeding on attempt k + 1 (k below
retry_count) makes flash return success with attempt = k + 1 after
exactly k + 1 invocations; a tool failing every attempt makes flash
invoke the tool exactly retry_count times, wait retry_delay between
consecutive attempts but never after the last action (an invocation), and
return failure with attempt = retry_count and a message carrying the last
observed error reason. -/
theorem flash_retry_policy (cfg : FlasherConfig) (behave : Nat → ToolOutcome) (port : String)
    (k : Nat) (hn : 1 ≤ cfg.retry_count) :
    ((k < cfg.retry_count →
      (∀ i, 1 ≤ i → i ≤ k → toolFails (behave i) = true) →
      toolFails (behave (k + 1)) = false →
      (flash cfg behave port).1.success = true
      ∧ (flash cfg behave port).1.attempt = k + 1
      ∧ countInvokes (flash cfg behave port).2 = k + 1))
    ∧ ((∀ i, 1 ≤ i → i ≤ cfg.retry_count → toolFails (behave i) = true) →
      (flash cfg behave port).1.success = false
      ∧ (flash cfg behave port).1.attempt = cfg.retry_count
      ∧ (flash cfg behave port).1.message
          = "Flash failed after " ++ toString cfg.retry_count ++ " attempts. Last error: "
            ++ (execute_flash cfg behave port cfg.retry_count).message
      ∧ countInvokes (flash cfg behave port).2 = cfg.retry_count
      ∧ countWaits (flash cfg behave port).2 = cfg.retry_count - 1
      ∧ (flash cfg behave port).2.getLast? = some (FlashAction.invoke cfg.retry_count)
      ∧ (∀ d, FlashAction.wait d ∈ (flash cfg behave port).2 → d = cfg.retry_delay)) := by
  constructor
  · intro hk hfail hsucc
    have h := flashLoop_success cfg behave port cfg.retry_count 1 k none hk
      (fun i h1 h2 => hfail i h1 (by omega))
      (by rw [show 1 + k = k + 1 from by omega]; exact hsucc)
    unfold flash
    refine ⟨?_, ?_, h.2⟩
    · rw [show (1 : Nat) + k = k + 1 from by omega] at h
      rw [h.1, execute_flash_success, hsucc]
      rfl
    · rw [show (1 : Nat) + k = k + 1 from by omega] at h
      rw [h.1, execute_flash_attempt]
  · intro hfail
    have h := flashLoop_fail cfg behave port cfg.retry_count 1 none hn
      (fun i h1 h2 => hfail i h1 (by omega))
    rw [show 1 + cfg.retry_count - 1 = cfg.retry_count from by omega] at h
    unfold flash
    refine ⟨?_, ?_, ?_, h.2.1, h.2.2.1, h.2.2.2.1, h.2.2.2.2⟩
    · rw [h.1]; rfl
    · rw [h.1]; rfl
    · rw [h.1]; rfl

/-- A concrete flasher configuration for the witnesses: three attempts,
two-second delay. -/
def cfgFl : FlasherConfig :=
  ⟨"/media/pi/sda1/firmware.bin",
   "esptool --port {port} --baud {baudrate} write_flash 0x0 {firmware}", 60, 115200, 3, 2⟩

/-- A tool that fails its first invocation with exit code 2 and succeeds
afterwards. -/
def behaveOnce : Nat → ToolOutcome := fun i => if i ≤ 1 then ToolOutcome.exit 2 else ToolOutcome.exit 0

/-- A tool that always times out. -/
def behaveNever : Nat → ToolOutcome := fun _ => ToolOutcome.timeout

/-- Witness for C3: the eventually-successful stub at k = 1 and the
always-failing stub at the same configuration. -/
theorem flash_retry_policy_witness :
    ((flash cfgFl behaveOnce "/dev/ttyUSB0").1.success = true
     ∧ (flash cfgFl behaveOnce "/dev/ttyUSB0").1.attempt = 2
     ∧ countInvokes (flash cfgFl behaveOnce "/dev/ttyUSB0").2 = 2)
    ∧ ((flash cfgFl behaveNever "/dev/ttyUSB0").1.success = false
       ∧ (flash cfgFl behaveNever "/dev/ttyUSB0").1.attempt = 3
       ∧ (flash cfgFl behaveNever "/dev/ttyUSB0").1.message
           = "Flash failed after " ++ toString cfgFl.retry_count ++ " attempts. Last error: "
             ++ (execute_flash cfgFl behaveNever "/dev/ttyUSB0" cfgFl.retry_count).message
       ∧ countInvokes (flash cfgFl behaveNever "/dev/ttyUSB0").2 = 3
       ∧ countWaits (flash cfgFl behaveNever "/dev/ttyUSB0").2 = 2
       ∧ (flash cfgFl behaveNever "/dev/ttyUSB0").2.getLast?
           = some (FlashAction.invoke 3)
       ∧ (∀ d, FlashAction.wait d ∈ (flash cfgFl behaveNever "/dev/ttyUSB0").2
           → d = cfgFl.retry_delay)) := by
  constructor
  · exact (flash_retry_policy cfgFl behaveOnce "/dev/ttyUSB0" 1 (by decide)).1
      (by decide)
      (by intro i h1 h2
          have : i = 1 := by omega
          subst this
          decide)
      (by decide)
  · exact (flash_retry_policy cfgFl behaveNever "/dev/ttyUSB0" 0 (by decide)).2
      (fun i _ _ => rfl)

end UsbFlash
